import Mathlib

/-!
Verification of `scripts/generate_and_deploy.py`: a sequential blog-generation
runner that wraps a remote chat-completion API call with bounded retries and
exponential backoff with jitter, writes each successful result to a file, and
builds a sitemap listing the root URL plus the files actually written.

The Python source is shallowly embedded below.  Remote calls are modelled by
an oracle `outcomes : Nat -> CallOutcome` giving the result of the i-th HTTP
invocation; the `while attempt < max_retries` loop is embedded as structural
recursion on the remaining budget `fuel = max_retries - attempt`.
-/

namespace GenDeploy

/-! ### Filename derivation

Source line 102:
`fname = re.sub(r'[^a-z0-9]+', '-', t.lower()).strip('-') + ".html"` -/

/-- Python `str.lower()` restricted to the ASCII range (the only range the
repository's topic strings use). -/
def pyLowerChar (c : Char) : Char :=
  if 'A' ≤ c ∧ c ≤ 'Z' then Char.ofNat (c.toNat + 32) else c

/-- Membership in the regex character class `[a-z0-9]`. -/
def isLowerAlnum (c : Char) : Bool :=
  ('a' ≤ c && c ≤ 'z') || ('0' ≤ c && c ≤ '9')

/-- Left-to-right scan embedding `re.sub(r'[^a-z0-9]+', '-', s)`: the flag
records whether the scanner is inside a run of non-matching characters that
has already emitted its single '-'. -/
def subAux : Bool → List Char → List Char
  | _, [] => []
  | inRun, c :: cs =>
    if isLowerAlnum c then c :: subAux false cs
    else if inRun then subAux inRun cs
    else '-' :: subAux true cs

/-- Python `s.strip(chars)`: remove the characters satisfying `p` from both
ends of the list. -/
def pyStrip (p : Char → Bool) (l : List Char) : List Char :=
  ((l.dropWhile p).reverse.dropWhile p).reverse

/-- Source line 102: lowercase the topic, collapse runs of characters outside
`[a-z0-9]` to a single '-', strip leading and trailing '-', append ".html". -/
def derive_filename (t : String) : String :=
  String.mk (pyStrip (fun c => c = '-') (subAux false (t.data.map pyLowerChar))) ++ ".html"

theorem length_dropWhile_le (p : Char → Bool) (l : List Char) :
    (l.dropWhile p).length ≤ l.length := by
  induction l with
  | nil => exact Nat.le_refl _
  | cons c cs ih =>
    rw [List.dropWhile_cons]
    by_cases h : p c = true
    · simp only [h, if_true]
      exact Nat.le_succ_of_le ih
    · simp [h]

/-- The spec's description of the derivation: replace every MAXIMAL run of
characters outside `[a-z0-9]` by a single '-' (a maximal run is consumed in
one step via `dropWhile`).  Stated independently of the scanner `subAux` so
that the two formulations can be compared. -/
def collapseRuns : List Char → List Char
  | [] => []
  | c :: cs =>
    if isLowerAlnum c then c :: collapseRuns cs
    else '-' :: collapseRuns (cs.dropWhile (fun x => !isLowerAlnum x))
termination_by l => l.length
decreasing_by
  · simp only [List.length_cons]
    exact Nat.lt_succ_of_le (Nat.le_refl _)
  · simp only [List.length_cons]
    exact Nat.lt_succ_of_le (length_dropWhile_le _ cs)

/-- The filename as the spec words it. -/
def spec_filename (t : String) : String :=
  String.mk (pyStrip (fun c => c = '-') (collapseRuns (t.data.map pyLowerChar))) ++ ".html"

theorem subAux_true_eq (l : List Char) :
    subAux true l = subAux false (l.dropWhile (fun x => !isLowerAlnum x)) := by
  induction l with
  | nil => rfl
  | cons c cs ih =>
    by_cases h : isLowerAlnum c = true
    · simp [subAux, h, List.dropWhile]
    · simp [subAux, h, List.dropWhile, ih]

theorem subAux_false_eq_collapseRuns (l : List Char) :
    subAux false l = collapseRuns l := by
  have key : ∀ n l, List.length l ≤ n → subAux false l = collapseRuns l := by
    intro n
    induction n with
    | zero =>
      intro l hl
      cases l with
      | nil => simp [subAux, collapseRuns]
      | cons c cs => simp at hl
    | succ n ih =>
      intro l hl
      cases l with
      | nil => simp [subAux, collapseRuns]
      | cons c cs =>
        by_cases h : isLowerAlnum c = true
        · simp only [subAux, h, if_true, collapseRuns]
          rw [ih cs (by simpa using Nat.le_of_succ_le_succ hl)]
        · simp only [subAux, h, collapseRuns, if_neg, Bool.false_eq_true,
            not_false_eq_true, if_false]
          rw [subAux_true_eq]
          rw [ih (cs.dropWhile (fun x => !isLowerAlnum x))
            (le_trans (length_dropWhile_le _ cs)
              (by simpa using Nat.le_of_succ_le_succ hl))]
  exact key l.length l le_rfl

/-! ### Backoff policy

Source lines 54 and 64: `backoff = (2 ** attempt) + random.uniform(0, 1)`. -/

/-- The backoff delay before the retry with (1-based) counter value `k`,
given the sampled jitter `j`. -/
def backoffDelay (k : Nat) (j : ℚ) : ℚ := 2 ^ k + j

/-! ### Resilient call executor

Source lines 30-69, `call_openai_with_retries`.  One invocation of the
remote endpoint (lines 44-47: `requests.post`, `raise_for_status`, `r.json()`
and the `data["choices"][0]["message"]["content"]` lookup) produces one of
the outcomes below. -/

/-- Result of a single remote invocation. -/
inductive CallOutcome where
  /-- 2xx response with a well-formed body; carries the content string. -/
  | success (content : String)
  /-- `r.raise_for_status()` raised `requests.exceptions.HTTPError`. -/
  | httpError (status : Nat)
  /-- `requests.post` raised a network-level `requests.exceptions.RequestException`. -/
  | netError
  /-- `r.json()` raised `requests.exceptions.JSONDecodeError`, which since
  requests 2.27 subclasses `RequestException` and is therefore caught by the
  network-error handler at line 61. -/
  | jsonDecodeError
  /-- the `data["choices"][0]["message"]["content"]` lookup raised
  (`KeyError`/`IndexError`/`TypeError`), which no handler in the function
  catches. -/
  | missingField
  deriving DecidableEq, Repr

/-- Terminal failures of `call_openai_with_retries` (the exceptions that
escape it, and the final `RuntimeError`). -/
inductive Failure where
  /-- line 69: `RuntimeError` after the retry budget is spent. -/
  | retriesExhausted
  /-- line 60: a non-retryable `HTTPError` is re-raised. -/
  | fatalHttp (status : Nat)
  /-- an uncaught exception from the response-field lookup propagates. -/
  | parseFieldError
  deriving DecidableEq, Repr

/-- Source line 52: the statuses retried with backoff. -/
def retryableStatuses : List Nat := [429, 500, 502, 503, 504]

/-- Whether one invocation outcome takes a retry branch of the loop. -/
def isRetryable : CallOutcome → Bool
  | .success _ => false
  | .httpError s => retryableStatuses.contains s
  | .netError => true
  | .jsonDecodeError => true
  | .missingField => false

/-- Python `str.strip()` on ASCII whitespace, applied to the content at
line 47. -/
def pyIsSpace (c : Char) : Bool :=
  c = ' ' || c = '\t' || c = '\n' || c = '\x0b' || c = '\x0c' || c = '\r'

instance : DecidableEq (Except Failure String)
  | .ok a, .ok b =>
    if h : a = b then .isTrue (by rw [h])
    else .isFalse (fun hc => by cases hc; exact h rfl)
  | .ok _, .error _ => .isFalse (fun hc => by cases hc)
  | .error _, .ok _ => .isFalse (fun hc => by cases hc)
  | .error a, .error b =>
    if h : a = b then .isTrue (by rw [h])
    else .isFalse (fun hc => by cases hc; exact h rfl)

/-- What a finished call reports: the returned/raised value, the number of
remote invocations issued, and the 1-based retry counter value of each
backoff sleep performed (the sleep with counter `k` lasts
`backoffDelay k j = 2 ^ k + j` seconds). -/
structure ExecResult where
  result : Except Failure String
  calls : Nat
  sleeps : List Nat
  deriving DecidableEq, Repr

/-- The `while attempt < max_retries` loop of lines 32-67, as recursion on
`fuel = max_retries - attempt`; `attempt` is the Python counter. -/
def execGo (outcomes : Nat → CallOutcome) :
    Nat → Nat → Nat → List Nat → ExecResult
  | 0, _, calls, sleeps => ⟨.error .retriesExhausted, calls, sleeps⟩
  | fuel + 1, attempt, calls, sleeps =>
    match outcomes calls with
    | .success content =>
      ⟨.ok (String.mk (pyStrip pyIsSpace content.data)), calls + 1, sleeps⟩
    | .httpError s =>
      if retryableStatuses.contains s then
        execGo outcomes fuel (attempt + 1) (calls + 1) (sleeps ++ [attempt + 1])
      else
        ⟨.error (.fatalHttp s), calls + 1, sleeps⟩
    | .netError =>
      execGo outcomes fuel (attempt + 1) (calls + 1) (sleeps ++ [attempt + 1])
    | .jsonDecodeError =>
      execGo outcomes fuel (attempt + 1) (calls + 1) (sleeps ++ [attempt + 1])
    | .missingField =>
      ⟨.error .parseFieldError, calls + 1, sleeps⟩

/-- Source lines 30-69: `attempt` starts at 0 and the loop runs while
`attempt < max_retries`. -/
def call_openai_with_retries (outcomes : Nat → CallOutcome)
    (max_retries : Nat) : ExecResult :=
  execGo outcomes max_retries 0 0 []

/-! ### Task runner

Source lines 94-110: the loop over `topics`.  `generate_blog` (lines 80-92)
calls `call_openai_with_retries` with the default `max_retries=5`; the
per-topic remote behaviour is an oracle `String → Nat → CallOutcome`. -/

/-- Source line 71. -/
def OUT_DIR : String := "generated"

/-- Source line 105: the fixed leading comment written before the content. -/
def HTML_MARKER : String := "<!-- Auto-generated blog -->\n"

/-- Source line 110: `time.sleep(2)` after a successful task. -/
def INTER_TASK_PAUSE : Nat := 2

/-- Source lines 80-92 plus the `try` of line 97: the outcome of
`generate_blog(t)` for a topic, as observed by the main loop. -/
def genResult (oracle : String → Nat → CallOutcome) (t : String) :
    Except Failure String :=
  (call_openai_with_retries (oracle t) 5).result

/-- Whether `generate_blog` returned normally (no exception reached the
`except` at line 99). -/
def succeeded (r : Except Failure String) : Bool :=
  match r with
  | .ok _ => true
  | .error _ => false

/-- One `open(path, "w")` event of lines 103-106: the directory and filename
passed to `os.path.join`, and the full content written. -/
structure FileWrite where
  dir : String
  name : String
  content : String
  deriving DecidableEq, Repr

/-- Observable state accumulated by the main loop (lines 94-110):
`created` is the Python list `created_files`, `writes` the file-write events
in order, `pauses` the durations of the `time.sleep(2)` calls executed. -/
structure RunState where
  created : List String
  writes : List FileWrite
  pauses : List Nat
  deriving DecidableEq, Repr

/-- The main loop, lines 94-110.  On a generation failure the `except`
branch prints and `continue`s — skipping the write, the append AND the
`time.sleep(2)` at line 110. -/
def runLoop (oracle : String → Nat → CallOutcome) : List String → RunState
  | [] => ⟨[], [], []⟩
  | t :: rest =>
    match genResult oracle t with
    | .error _ => runLoop oracle rest
    | .ok html =>
      let s := runLoop oracle rest
      ⟨derive_filename t :: s.created,
       ⟨OUT_DIR, derive_filename t, HTML_MARKER ++ html⟩ :: s.writes,
       INTER_TASK_PAUSE :: s.pauses⟩

/-! ### Sitemap construction

Source lines 112-119. -/

/-- Source line 113: the list of URLs that become the `<loc>` entries, in
order — the site root first, then one per created file. -/
def sitemapUrls (base : String) (created : List String) : List String :=
  (base ++ "/") :: created.map (fun fn => base ++ "/" ++ fn)

/-- Source line 116: one `<url>` block of the sitemap. -/
def urlBlock (u date : String) : String :=
  "  <url>\n    <loc>" ++ u ++ "</loc>\n    <lastmod>" ++ date ++
    "</lastmod>\n  </url>\n"

/-- Source lines 114-117: the full `sitemap.xml` text. -/
def buildSitemap (urls : List String) (date : String) : String :=
  urls.foldl (fun acc u => acc ++ urlBlock u date)
      ("<?xml version=\"1.0\" encoding=\"UTF-8\"?>\n<urlset xmlns=\"http://www.sitemaps.org/schemas/sitemap/0.9\">\n")
    ++ "</urlset>"

/-! ### Startup credential check

Source lines 14-20: `OPENAI_KEY = os.environ.get("OPENAI_API_KEY")`, then
`if not OPENAI_KEY: print(..., file=sys.stderr); sys.exit(1)`.  Python
treats both an unset variable (`None`) and an empty string as falsy. -/

/-- How a process run ends: early exit with a code and a stderr line, or
normal completion with the main loop's final state. -/
inductive ProcResult where
  | exited (code : Nat) (stderrLine : String)
  | completed (st : RunState)
  deriving DecidableEq, Repr

/-- The whole script: credential check first (lines 14-20), then the task
loop (lines 94-110). -/
def mainProc (key : Option String) (oracle : String → Nat → CallOutcome)
    (topics : List String) : ProcResult :=
  match key with
  | none => .exited 1 "OPENAI_API_KEY missing in env"
  | some k =>
    if k.isEmpty then .exited 1 "OPENAI_API_KEY missing in env"
    else .completed (runLoop oracle topics)

/-! ### Executor behaviour under persistent retryable failures -/

/-- The retry counter values `a+1, a+2, ..., a+n` slept by `n` consecutive
retries starting from counter value `a`. -/
def sleepSeq : Nat → Nat → List Nat
  | _, 0 => []
  | a, n + 1 => (a + 1) :: sleepSeq (a + 1) n

theorem sleepSeq_eq_range_map (n : Nat) :
    ∀ a, sleepSeq a n = (List.range n).map (fun i => a + i + 1) := by
  induction n with
  | zero => intro a; rfl
  | succ m ih =>
    intro a
    rw [List.range_succ_eq_map]
    simp only [sleepSeq, List.map_cons, List.map_map, ih (a + 1)]
    refine congrArg₂ _ (by omega) ?_
    refine List.map_congr_left ?_
    intro i _
    simp [Function.comp]
    omega

theorem execGo_all_retryable (outcomes : Nat → CallOutcome)
    (h : ∀ i, isRetryable (outcomes i) = true) :
    ∀ (fuel attempt calls : Nat) (sleeps : List Nat),
      execGo outcomes fuel attempt calls sleeps =
        ⟨.error .retriesExhausted, calls + fuel, sleeps ++ sleepSeq attempt fuel⟩ := by
  intro fuel
  induction fuel with
  | zero => intro attempt calls sleeps; simp [execGo, sleepSeq]
  | succ n ih =>
    intro attempt calls sleeps
    have hr := h calls
    cases hout : outcomes calls with
    | success c => rw [hout] at hr; simp [isRetryable] at hr
    | missingField => rw [hout] at hr; simp [isRetryable] at hr
    | httpError s =>
      rw [hout] at hr
      simp only [isRetryable] at hr
      simp only [execGo, hout, hr, if_true]
      rw [ih (attempt + 1) (calls + 1) (sleeps ++ [attempt + 1])]
      simp only [sleepSeq, List.append_assoc, List.singleton_append]
      congr 1
      omega
    | netError =>
      simp only [execGo, hout]
      rw [ih (attempt + 1) (calls + 1) (sleeps ++ [attempt + 1])]
      simp only [sleepSeq, List.append_assoc, List.singleton_append]
      congr 1
      omega
    | jsonDecodeError =>
      simp only [execGo, hout]
      rw [ih (attempt + 1) (calls + 1) (sleeps ++ [attempt + 1])]
      simp only [sleepSeq, List.append_assoc, List.singleton_append]
      congr 1
      omega

theorem call_all_retryable (outcomes : Nat → CallOutcome) (R : Nat)
    (h : ∀ i, isRetryable (outcomes i) = true) :
    call_openai_with_retries outcomes R =
      ⟨.error .retriesExhausted, R, (List.range R).map (fun i => i + 1)⟩ := by
  rw [call_openai_with_retries, execGo_all_retryable outcomes h R 0 0 []]
  rw [sleepSeq_eq_range_map]
  simp

/-! ### Runner bookkeeping lemmas -/

theorem runLoop_created_filterMap (oracle : String → Nat → CallOutcome)
    (ts : List String) :
    (runLoop oracle ts).created =
      ts.filterMap (fun s =>
        if succeeded (genResult oracle s) then some (derive_filename s)
        else none) := by
  induction ts with
  | nil => rfl
  | cons t rest ih =>
    cases h : genResult oracle t with
    | error e => simp [runLoop, h, succeeded, List.filterMap_cons, ih]
    | ok c => simp [runLoop, h, succeeded, List.filterMap_cons, ih]

theorem runLoop_created_eq_write_names (oracle : String → Nat → CallOutcome)
    (ts : List String) :
    (runLoop oracle ts).created = (runLoop oracle ts).writes.map FileWrite.name := by
  induction ts with
  | nil => rfl
  | cons t rest ih =>
    cases h : genResult oracle t with
    | error e => simp [runLoop, h, ih]
    | ok c => simp [runLoop, h, ih]

/-- Concatenation of a list of strings in order. -/
def concatStrings (l : List String) : String :=
  l.foldr (fun s acc => s ++ acc) ""

theorem buildSitemap_foldl (date : String) (urls : List String) :
    ∀ acc : String,
      urls.foldl (fun acc u => acc ++ urlBlock u date) acc =
        acc ++ concatStrings (urls.map (fun u => urlBlock u date)) := by
  induction urls with
  | nil => intro acc; simp [concatStrings]
  | cons u rest ih =>
    intro acc
    simp only [List.foldl_cons, List.map_cons, concatStrings, List.foldr_cons]
    rw [ih (acc ++ urlBlock u date)]
    simp [concatStrings, String.append_assoc]

/-! ### Claims -/

/-- C1: a task whose generation terminally fails (retries exhausted or a
fatal error from the executor) is skipped, every other task is still
attempted, the artifacts of the other tasks appear in their original order,
and the run never aborts at task level: the created-file list of any task
sequence containing the failed task equals the created files of the tasks
before it followed by those of the tasks after it, and in general the
created-file list is exactly the filenames of the succeeding tasks in task
order. -/
theorem C1_task_isolation (oracle : String → Nat → CallOutcome)
    (pre post ts : List String) (t : String)
    (hfail : succeeded (genResult oracle t) = false) :
    (runLoop oracle (pre ++ t :: post)).created =
        (runLoop oracle pre).created ++ (runLoop oracle post).created ∧
    (runLoop oracle ts).created =
        ts.filterMap (fun s =>
          if succeeded (genResult oracle s) then some (derive_filename s)
          else none) := by
  constructor
  · induction pre with
    | nil =>
      cases hgen : genResult oracle t with
      | ok c => rw [hgen] at hfail; simp [succeeded] at hfail
      | error e => simp [runLoop, hgen]
    | cons p ps ih =>
      cases hp : genResult oracle p with
      | error e =>
        simp only [List.cons_append, runLoop, hp, List.append_eq]
        exact ih
      | ok c =>
        simp only [List.cons_append, runLoop, hp, List.append_eq]
        rw [ih]
  · exact runLoop_created_filterMap oracle ts

theorem C1_task_isolation_witness :
    (runLoop
        (fun tp _ => if tp = "b" then CallOutcome.httpError 503
                     else CallOutcome.success "X")
        (["a"] ++ "b" :: ["c"])).created =
      (runLoop
        (fun tp _ => if tp = "b" then CallOutcome.httpError 503
                     else CallOutcome.success "X") ["a"]).created ++
      (runLoop
        (fun tp _ => if tp = "b" then CallOutcome.httpError 503
                     else CallOutcome.success "X") ["c"]).created ∧
    (runLoop
        (fun tp _ => if tp = "b" then CallOutcome.httpError 503
                     else CallOutcome.success "X")
        ["a", "b", "c"]).created =
      (["a", "b", "c"] : List String).filterMap (fun s =>
        if succeeded (genResult
            (fun tp _ => if tp = "b" then CallOutcome.httpError 503
                         else CallOutcome.success "X") s)
        then some (derive_filename s) else none) :=
  C1_task_isolation
    (fun tp _ => if tp = "b" then CallOutcome.httpError 503
                 else CallOutcome.success "X")
    ["a"] ["c"] ["a", "b", "c"] "b" (by decide)

/-- C2 counterexample: with `max_retries = 5` and a remote call answering
HTTP 503 on every invocation, the executor issues exactly 5 calls, not the
5 + 1 = 6 the claim asserts. -/
theorem C2_counterexample :
    (call_openai_with_retries (fun _ => CallOutcome.httpError 503) 5).calls = 5 ∧
    ¬ (call_openai_with_retries (fun _ => CallOutcome.httpError 503) 5).calls
        = 5 + 1 := by
  decide

/-- C2 (amended): with `max_retries = R` and a remote call that fails
retryably on every invocation, the executor issues exactly R total attempts
(1 initial + R-1 retries; the loop guard `attempt < max_retries` is checked
before each call and `attempt` is incremented after each retryable failure)
and then returns terminal failure with the retries-exhausted reason. -/
theorem C2_retry_bound (R : Nat) (outcomes : Nat → CallOutcome)
    (h : ∀ i, isRetryable (outcomes i) = true) :
    (call_openai_with_retries outcomes R).result =
        Except.error Failure.retriesExhausted ∧
    (call_openai_with_retries outcomes R).calls = R := by
  rw [call_all_retryable outcomes R h]
  exact ⟨rfl, rfl⟩

theorem C2_retry_bound_witness :
    (call_openai_with_retries (fun _ => CallOutcome.netError) 3).result =
        Except.error Failure.retriesExhausted ∧
    (call_openai_with_retries (fun _ => CallOutcome.netError) 3).calls = 3 :=
  C2_retry_bound 3 (fun _ => CallOutcome.netError) (fun _ => rfl)

/-- C3: for every run, the URL list of the sitemap is the site root first,
followed by exactly one entry per artifact written during the run, in the
order the artifacts were produced (no extra entry, no omitted artifact);
and the sitemap document is the header followed by exactly one `<url>`
block (carrying the `<loc>`) per listed URL, in that order. -/
theorem C3_manifest_consistency (base date : String)
    (oracle : String → Nat → CallOutcome) (topics : List String) :
    sitemapUrls base (runLoop oracle topics).created =
      (base ++ "/") ::
        ((runLoop oracle topics).writes.map (fun w => base ++ "/" ++ w.name)) ∧
    buildSitemap (sitemapUrls base (runLoop oracle topics).created) date =
      "<?xml version=\"1.0\" encoding=\"UTF-8\"?>\n<urlset xmlns=\"http://www.sitemaps.org/schemas/sitemap/0.9\">\n"
        ++ concatStrings
            ((sitemapUrls base (runLoop oracle topics).created).map
              (fun u => urlBlock u date))
        ++ "</urlset>" := by
  constructor
  · rw [sitemapUrls, runLoop_created_eq_write_names, List.map_map]
    simp [Function.comp]
  · rw [buildSitemap, buildSitemap_foldl]

/-- C4: a fatal HTTP error on the first call (status outside
429/500/502/504/503, e.g. 400) yields exactly one attempt, no backoff
sleep, and immediate terminal failure (the `HTTPError` is re-raised). -/
theorem C4_fatal_no_retry (R : Nat) (outcomes : Nat → CallOutcome) (s : Nat)
    (hR : 1 ≤ R) (h0 : outcomes 0 = CallOutcome.httpError s)
    (hs : retryableStatuses.contains s = false) :
    call_openai_with_retries outcomes R =
      ⟨.error (.fatalHttp s), 1, []⟩ := by
  cases R with
  | zero => omega
  | succ n =>
    simp only [call_openai_with_retries, execGo, h0, hs, Bool.false_eq_true,
      if_false]

theorem C4_fatal_no_retry_witness :
    call_openai_with_retries (fun _ => CallOutcome.httpError 400) 5 =
      ⟨.error (.fatalHttp 400), 1, []⟩ :=
  C4_fatal_no_retry 5 (fun _ => CallOutcome.httpError 400) 400
    (by decide) rfl (by decide)

/-- C5 counterexample: with `max_retries = 5` and every invocation raising a
JSON-decode failure, the executor issues 5 attempts and performs 5 backoff
sleeps, refuting the claim that it performs exactly one attempt with no
sleep. -/
theorem C5_counterexample :
    (call_openai_with_retries (fun _ => CallOutcome.jsonDecodeError) 5).calls
        = 5 ∧
    (call_openai_with_retries (fun _ => CallOutcome.jsonDecodeError) 5).sleeps
        = [1, 2, 3, 4, 5] ∧
    ¬ ((call_openai_with_retries
          (fun _ => CallOutcome.jsonDecodeError) 5).calls = 1 ∧
       (call_openai_with_retries
          (fun _ => CallOutcome.jsonDecodeError) 5).sleeps = []) := by
  decide

/-- C5 (amended): a JSON-decode failure of the response body is caught by
the `requests.exceptions.RequestException` handler (since requests 2.27
`JSONDecodeError` subclasses it) and treated as retryable: it consumes
retry budget and sleeps with backoff, and when every invocation fails this
way the call returns retries-exhausted after `max_retries` attempts with
one backoff sleep per failure. -/
theorem C5_json_decode_is_retried (R : Nat) :
    call_openai_with_retries (fun _ => CallOutcome.jsonDecodeError) R =
      ⟨.error .retriesExhausted, R, (List.range R).map (fun i => i + 1)⟩ :=
  call_all_retryable _ R (fun _ => rfl)

/-- C6: the derived artifact filename is the topic lowercased with every
maximal run of characters outside `[a-z0-9]` replaced by a single '-',
leading and trailing '-' removed and ".html" appended (the scanner embedded
from `re.sub` agrees with the spec's maximal-run description on every
input), and on the spec's example topic it yields exactly the stated name. -/
theorem C6_filename_derivation :
    (∀ t, derive_filename t = spec_filename t) ∧
    derive_filename "Top 5 tips to improve hotel WiFi speeds!" =
      "top-5-tips-to-improve-hotel-wifi-speeds.html" := by
  constructor
  · intro t
    rw [derive_filename, spec_filename, subAux_false_eq_collapseRuns]
  · decide

/-- C7: the backoff delay for retry counter `k` is `2 ^ k` seconds plus the
sampled jitter, and for every pair of jitter values in `[0, 1)` the delay
of retry `k + 1` strictly exceeds the delay of retry `k`, for all
`k ≥ 1`. -/
theorem C7_backoff_monotonic (k : Nat) (j1 j2 : ℚ)
    (hk : 1 ≤ k) (h1 : 0 ≤ j1) (h2 : j1 < 1) (h3 : 0 ≤ j2) (h4 : j2 < 1) :
    backoffDelay k j1 < backoffDelay (k + 1) j2 := by
  have hpow : (2 : ℚ) ≤ 2 ^ k := by
    calc (2 : ℚ) = 2 ^ 1 := (pow_one 2).symm
    _ ≤ 2 ^ k := pow_le_pow_right₀ (by norm_num) hk
  rw [backoffDelay, backoffDelay, pow_succ]
  nlinarith

theorem C7_backoff_monotonic_witness :
    backoffDelay 1 (1 / 2) < backoffDelay (1 + 1) 0 :=
  C7_backoff_monotonic 1 (1 / 2) 0 (le_refl 1) (by norm_num) (by norm_num)
    (le_refl 0) (by norm_num)

/-- C8 counterexample: a run of one task whose generation fails performs no
inter-task pause at all (the `except` branch `continue`s past the
`time.sleep(2)`), refuting the claim that the pause happens after every
task independent of outcome. -/
theorem C8_counterexample :
    (runLoop (fun _ _ => CallOutcome.httpError 503) ["a"]).pauses = [] ∧
    ¬ ((runLoop (fun _ _ => CallOutcome.httpError 503) ["a"]).pauses.length
        = (["a"] : List String).length) := by
  decide

/-- C8 (amended): the fixed 2-second inter-task pause is performed exactly
once per SUCCESSFUL task; a task whose generation fails proceeds to the
next task immediately, with no pause. -/
theorem C8_pause_only_after_success (oracle : String → Nat → CallOutcome)
    (ts : List String) :
    (runLoop oracle ts).pauses =
      (ts.filter (fun t => succeeded (genResult oracle t))).map
        (fun _ => INTER_TASK_PAUSE) := by
  induction ts with
  | nil => rfl
  | cons t rest ih =>
    cases h : genResult oracle t with
    | error e => simp [runLoop, h, succeeded, List.filter_cons, ih]
    | ok c => simp [runLoop, h, succeeded, List.filter_cons, ih]

/-- C9: a missing credential (unset, or set to the empty string, which
Python's `not` treats the same way) makes the process print a diagnostic to
stderr and exit with status 1 before any task runs; with a non-empty
credential the process never exits early and runs the whole task loop, no
matter how tasks fail. -/
theorem C9_startup_check (oracle : String → Nat → CallOutcome)
    (topics : List String) (k : String) (hk : k.isEmpty = false) :
    mainProc none oracle topics =
        ProcResult.exited 1 "OPENAI_API_KEY missing in env" ∧
    mainProc (some "") oracle topics =
        ProcResult.exited 1 "OPENAI_API_KEY missing in env" ∧
    mainProc (some k) oracle topics =
        ProcResult.completed (runLoop oracle topics) := by
  refine ⟨rfl, rfl, ?_⟩
  simp [mainProc, hk]

theorem C9_startup_check_witness :
    mainProc none (fun _ _ => CallOutcome.httpError 400) ["a"] =
        ProcResult.exited 1 "OPENAI_API_KEY missing in env" ∧
    mainProc (some "") (fun _ _ => CallOutcome.httpError 400) ["a"] =
        ProcResult.exited 1 "OPENAI_API_KEY missing in env" ∧
    mainProc (some "sk-test") (fun _ _ => CallOutcome.httpError 400) ["a"] =
        ProcResult.completed
          (runLoop (fun _ _ => CallOutcome.httpError 400) ["a"]) :=
  C9_startup_check (fun _ _ => CallOutcome.httpError 400) ["a"] "sk-test" rfl

/-- C10: when every invocation fails retryably, the executor performs one
backoff sleep per retryable failure — `max_retries` sleeps in total, with
retry counter values 1, ..., `max_retries` — so the final failed attempt is
still followed by its full backoff sleep (counter `max_retries`, i.e.
duration `2 ^ max_retries` plus jitter) before terminal failure is
returned. -/
theorem C10_final_backoff_sleep (R : Nat) (outcomes : Nat → CallOutcome)
    (h : ∀ i, isRetryable (outcomes i) = true) :
    (call_openai_with_retries outcomes R).sleeps =
        (List.range R).map (fun i => i + 1) ∧
    (call_openai_with_retries outcomes R).sleeps.length = R ∧
    (1 ≤ R → R ∈ (call_openai_with_retries outcomes R).sleeps) := by
  rw [call_all_retryable outcomes R h]
  refine ⟨rfl, by simp, ?_⟩
  intro hR
  simp only [List.mem_map, List.mem_range]
  exact ⟨R - 1, by omega, by omega⟩

theorem C10_final_backoff_sleep_witness :
    (call_openai_with_retries (fun _ => CallOutcome.httpError 429) 2).sleeps =
        (List.range 2).map (fun i => i + 1) ∧
    (call_openai_with_retries (fun _ => CallOutcome.httpError 429) 2).sleeps.length
        = 2 ∧
    (1 ≤ 2 →
      2 ∈ (call_openai_with_retries (fun _ => CallOutcome.httpError 429) 2).sleeps) :=
  C10_final_backoff_sleep 2 (fun _ => CallOutcome.httpError 429) (fun _ => rfl)

end GenDeploy
